import Mathlib

/-!
# Above the Clouds — verification of the simulation core

Shallow embedding of the simulation/interaction core of `src/src/main.c`
(the final version of the game, starting at the banner around line 1907:
constants at 1914-1960, data types at 2008-2054, inventory helpers at
2220-2240, the game loop in `main` at 2242-2941, and the stateful UI
routines `DrawWorkbenchUI` (4168), `DrawTradeScreenUI` (4725),
`DrawInventoryScreen` (3757), `DrawDataLogViewer` (4487)).

Modelling conventions:
* C `float` quantities (timers, conditions, distances, positions) are
  embedded as `ℚ`.  All comparisons in the embedded code are exact, as in
  the source.  Distance tests `Vector2Distance(a,b) <= r` are embedded as
  the equivalent squared-distance tests `distSq a b ≤ r*r` (both sides are
  non-negative), which keeps everything rational.
* C `int` state variables that use `-1` as a "none" sentinel
  (`repairSlot`, `sacrificeSlot`, `selectedTradeSlot`) are embedded as `ℤ`
  with the same sentinel.
* Calls to `GetRandomValue` are embedded as oracle inputs to the step
  functions; theorems constrain them to the ranges the source draws from.
* Reading an array out of bounds is undefined behaviour in C; the embedded
  per-frame repair update returns `Option` and yields `none` exactly when
  the source would perform such a read.
* Pure-drawing code (shapes, colors, text, overlays) is not modelled; the
  stateful fragments inside the Draw* routines (click handlers, purchase
  logic, close buttons) are.  Mouse hit-testing is abstracted: each
  clickable widget becomes one action, guarded by the same logical
  conditions the source checks.
* The player's position at the instant of an interact press is an input of
  the interact action: movement integration (WASD, normalisation,
  clamping) only determines which positions are attainable and is not
  needed by any claim.
-/

namespace AboveTheClouds

/-- Item categories, from the `ItemCategory` enum (main.c:2009-2014). -/
inductive Category where
  | ITEM_ELECTRONICS
  | ITEM_POWER
  | ITEM_OPTICS
  | ITEM_STRUCTURAL
deriving DecidableEq, Repr

/-- The category column of the static `ITEM_TYPES` table (main.c:2024-2030):
Circuit Board, Wire Bundle (electronics), Battery Cell (power),
Lens Array (optics), Metal Plating (structural). -/
def ITEM_TYPES_category : List Category :=
  [Category.ITEM_ELECTRONICS, Category.ITEM_ELECTRONICS, Category.ITEM_POWER,
   Category.ITEM_OPTICS, Category.ITEM_STRUCTURAL]

/-- Constant `NUM_ITEM_TYPES` (main.c:2031). -/
def NUM_ITEM_TYPES : ℕ := 5

/-- Category of `ITEM_TYPES[t]`; `none` models an out-of-bounds read of the
static table. -/
def categoryOf (t : ℕ) : Option Category := ITEM_TYPES_category.get? t

/-- Workbench states (main.c:1943-1947). -/
inductive WorkbenchState where
  | WB_CLOSED
  | WB_OPEN
  | WB_REPAIRING
deriving DecidableEq, Repr

export WorkbenchState (WB_CLOSED WB_OPEN WB_REPAIRING)

/-- Sandstorm states (main.c:1935-1940). -/
inductive StormState where
  | STORM_CALM
  | STORM_BUILDING
  | STORM_ACTIVE
  | STORM_FADING
deriving DecidableEq, Repr

export StormState (STORM_CALM STORM_BUILDING STORM_ACTIVE STORM_FADING)

/-- A world item (main.c:2034-2040). -/
structure WorldItem where
  typeIndex : ℕ
  condition : ℚ
  position : ℚ × ℚ
  active : Bool
  respawnTimer : ℚ
deriving DecidableEq, Repr

/-- An inventory slot (main.c:2050-2054). -/
structure InventorySlot where
  typeIndex : ℕ
  condition : ℚ
  occupied : Bool
deriving DecidableEq, Repr

/-- Constant `MAX_INVENTORY` — the physical size of the inventory array in the final
version (main.c:1921); the logical capacity `maxInventory` starts at 8. -/
def MAX_INVENTORY : ℕ := 10

/-- Constant `NUM_SCAVENGE_ITEMS` (main.c:1918). -/
def NUM_SCAVENGE_ITEMS : ℕ := 18

/-- Constant `PICKUP_RADIUS` (main.c:1922). -/
def PICKUP_RADIUS : ℚ := 50

/-- Constant `FULL_MSG_DURATION` (main.c:1924). -/
def FULL_MSG_DURATION : ℚ := 2

/-- Workbench anchor, `(WORKBENCH_X, WORKBENCH_Y)` (main.c:1953-1954):
(4000/2 - 100 + 80/2, 4000/2 - 80 + 60 - 18) = (1940, 1962). -/
def workbenchPos : ℚ × ℚ := (1940, 1962)

/-- City-gate anchor, `(GATE_X, GATE_Y)` (main.c:1958-1959) = (2200, 2000). -/
def gatePos : ℚ × ℚ := (2200, 2000)

/-- Constant `GATE_INTERACT_RADIUS` (main.c:1960). -/
def GATE_INTERACT_RADIUS : ℚ := 70

/-- Squared Euclidean distance; `Vector2Distance a b ≤ r` (r ≥ 0) is embedded
as `distSq a b ≤ r*r`. -/
def distSq (a b : ℚ × ℚ) : ℚ := (a.1 - b.1) ^ 2 + (a.2 - b.2) ^ 2

/-- The test `Vector2Distance p q <= r` as a boolean (r ≥ 0 everywhere it is used). -/
def withinDist (p q : ℚ × ℚ) (r : ℚ) : Bool := distSq p q ≤ r * r

/-- Source `CountInventory` (main.c:2220-2227): number of occupied slots among the
first `maxInv` entries. -/
def CountInventory (inventory : List InventorySlot) (maxInv : ℕ) : ℕ :=
  ((inventory.take maxInv).filter (fun s => s.occupied)).length

/-- Source `AddToInventory` (main.c:2229-2240): occupy the first unoccupied slot at
index `< maxInv`; returns whether a slot was found, with the updated list. -/
def AddToInventory (inventory : List InventorySlot) (typeIndex : ℕ)
    (condition : ℚ) (maxInv : ℕ) : Bool × List InventorySlot :=
  match inventory, maxInv with
  | [], _ => (false, [])
  | s :: rest, 0 => (false, s :: rest)
  | s :: rest, m + 1 =>
      if s.occupied then
        let r := AddToInventory rest typeIndex condition m
        (r.1, s :: r.2)
      else
        (true, { typeIndex := typeIndex, condition := condition, occupied := true } :: rest)

/-- Guarded read `inventory[i]` for a C `int` index: `none` models an
out-of-bounds access. -/
def slotGet? (inventory : List InventorySlot) (i : ℤ) : Option InventorySlot :=
  if 0 ≤ i then inventory.get? i.toNat else none

/-- Update the element at position `n` (helper for in-place array writes). -/
def listModify {α : Type} (f : α → α) : ℕ → List α → List α
  | _, [] => []
  | 0, a :: as => f a :: as
  | n + 1, a :: as => a :: listModify f n as

/-- The simulation-core state owned by `main` (main.c:2296-2442): world items,
inventory, workbench transaction, gate-trade/shop economy, and the modal-UI
flags.  Presentation-only state (particles, footprints, dust, shimmers,
camera, animation phases) is not modelled. -/
structure GameState where
  worldItems : List WorldItem
  inventory : List InventorySlot
  workbenchState : WorkbenchState
  repairSlot : ℤ
  sacrificeSlot : ℤ
  repairTimer : ℚ
  repairDone : Bool
  tokenCount : ℤ
  tradeScreenOpen : Bool
  dataLogsPurchased : ℤ
  toolUpgradePurchased : Bool
  carryUpgradePurchased : Bool
  maxInventory : ℕ
  baseRepairBonus : ℚ
  tokenAnimTimer : ℚ
  tokenAnimDelta : ℤ
  selectedTradeSlot : ℤ
  dataLogViewerOpen : Bool
  dataLogViewerIndex : ℤ
  inventoryOpen : Bool
  inventoryTab : ℤ
  fullMsgTimer : ℚ
  pickupFlashTimer : ℚ
deriving DecidableEq, Repr

/-- Constant `pickupFlashMax` (main.c:2390). -/
def pickupFlashMax : ℚ := 1 / 5

/-- Initial state built in `main` before the game loop (main.c:2332-2442);
the 18 world items are randomly generated (main.c:2296-2309), so they are a
parameter here, constrained by `ItemsWellFormed`. -/
def initState (items : List WorldItem) : GameState where
  worldItems := items
  inventory := List.replicate MAX_INVENTORY { typeIndex := 0, condition := 0, occupied := false }
  workbenchState := WB_CLOSED
  repairSlot := -1
  sacrificeSlot := -1
  repairTimer := 0
  repairDone := false
  tokenCount := 0
  tradeScreenOpen := false
  dataLogsPurchased := 0
  toolUpgradePurchased := false
  carryUpgradePurchased := false
  maxInventory := 8
  baseRepairBonus := 1 / 5
  tokenAnimTimer := 0
  tokenAnimDelta := 1
  selectedTradeSlot := -1
  dataLogViewerOpen := false
  dataLogViewerIndex := 0
  inventoryOpen := false
  inventoryTab := 0
  fullMsgTimer := 0
  pickupFlashTimer := 0

/-- What the world-item initialisation (main.c:2296-2309) guarantees: 18
items, all active with zero respawn timer, type drawn from the 5-entry
table, condition `0.3 + GetRandomValue(0,600)/1000 ∈ [0.3, 0.9]`, placed
within 1200 units of the world center. -/
def ItemsWellFormed (items : List WorldItem) : Prop :=
  items.length = NUM_SCAVENGE_ITEMS ∧
  ∀ it ∈ items, it.active = true ∧ it.respawnTimer = 0 ∧
    it.typeIndex < NUM_ITEM_TYPES ∧
    3 / 10 ≤ it.condition ∧ it.condition ≤ 9 / 10 ∧
    distSq it.position (2000, 2000) ≤ 1200 * 1200

/-- Deactivation of a picked-up world item (main.c:2689-2690): `active`
cleared and `respawnTimer` set to `60 + GetRandomValue(0, 30)`; the random
draw is the oracle input `rng`. -/
def pickUpItem (it : WorldItem) (rng : ℚ) : WorldItem :=
  { it with active := false, respawnTimer := 60 + rng }

/-- Index of the first active world item within `PICKUP_RADIUS` of `p` — the
scan order of both the `nearItem` loop (main.c:2662-2668) and the pickup
loop (main.c:2681-2700). -/
def firstNearActive (p : ℚ × ℚ) : List WorldItem → Option ℕ
  | [] => none
  | it :: rest =>
      if it.active && withinDist p it.position PICKUP_RADIUS then some 0
      else (firstNearActive p rest).map (· + 1)

/-- The item-pickup branch of the interact handler (main.c:2681-2700): the
first active in-range item is either transferred into the inventory (if
`CountInventory < maxInventory`) or rejected with the timed "inventory
full" notice; only one item is touched per press. -/
def pickupBranch (p : ℚ × ℚ) (rng : ℚ) (s : GameState) : GameState :=
  match firstNearActive p s.worldItems with
  | none => s
  | some i =>
      match s.worldItems.get? i with
      | none => s
      | some it =>
          if CountInventory s.inventory s.maxInventory < s.maxInventory then
            { s with
                inventory := (AddToInventory s.inventory it.typeIndex it.condition s.maxInventory).2,
                worldItems := listModify (fun w => pickUpItem w rng) i s.worldItems,
                pickupFlashTimer := pickupFlashMax }
          else
            { s with fullMsgTimer := FULL_MSG_DURATION }

/-- Opening the workbench (main.c:2675-2678 and 2703-2706). -/
def openWorkbench (s : GameState) : GameState :=
  { s with workbenchState := WB_OPEN, repairSlot := -1, sacrificeSlot := -1,
           repairDone := false }

/-- The interact (`E` key) dispatch (main.c:2654-2709), with the three
proximity conditions the source computes first (`nearItem`,
`gateDist <= GATE_INTERACT_RADIUS`, `wbDist <= 60.0f`) taken as arguments:
gate first, then workbench, then item pickup, then the redundant trailing
workbench check (main.c:2702-2707). -/
def interactDispatch (p : ℚ × ℚ) (rng : ℚ) (nearItem nearGate nearWb : Bool)
    (s : GameState) : GameState :=
  if !nearItem && nearGate && s.workbenchState = WB_CLOSED then
    { s with tradeScreenOpen := true, selectedTradeSlot := -1 }
  else if !nearItem && nearWb && s.workbenchState = WB_CLOSED then
    openWorkbench s
  else
    let s1 := pickupBranch p rng s
    if !nearItem && nearWb && s1.workbenchState = WB_CLOSED then
      openWorkbench s1
    else s1

/-- The full interact handler (main.c:2654-2709): proximity flags computed
from the player position `p` and the world state, then dispatched. -/
def interactStep (p : ℚ × ℚ) (rng : ℚ) (s : GameState) : GameState :=
  interactDispatch p rng (firstNearActive p s.worldItems).isSome
    (withinDist p gatePos GATE_INTERACT_RADIUS) (withinDist p workbenchPos 60) s

/-- The repair bonus (main.c:2492): the base bonus, plus 0.1 when the
repair item's category matches the sacrifice item's category. -/
def repairBonus (base : ℚ) (rep sac : InventorySlot) : ℚ :=
  if categoryOf rep.typeIndex = categoryOf sac.typeIndex then base + 1 / 10 else base

/-- The bonus application of the repair completion (main.c:2487-2496):
with `repairSlot` guarded (`>= 0 && < maxInventory && occupied`), read
`inventory[sacrificeSlot]` (main.c:2491) — *without* any guard on
`sacrificeSlot` — compare categories, and add the clamped bonus at the
repair slot.  Reads are embedded through `slotGet?`/`categoryOf`; an
out-of-bounds access yields `none` (undefined behaviour in the source). -/
def repairApplyBonus (s : GameState) : Option (List InventorySlot) :=
  if 0 ≤ s.repairSlot ∧ s.repairSlot < (s.maxInventory : ℤ) then
    match slotGet? s.inventory s.repairSlot with
    | some rep =>
        if rep.occupied then
          match categoryOf rep.typeIndex, slotGet? s.inventory s.sacrificeSlot with
          | some repCat, some sac =>
              match categoryOf sac.typeIndex with
              | some sacCat =>
                  let bonus := if repCat = sacCat then s.baseRepairBonus + 1 / 10
                               else s.baseRepairBonus
                  some (listModify
                    (fun sl =>
                      let c := sl.condition + bonus
                      { sl with condition := if 1 < c then 1 else c })
                    s.repairSlot.toNat s.inventory)
              | none => none
          | _, _ => none
        else some s.inventory
    | none => none
  else some s.inventory

/-- Repair completion (main.c:2486-2508): apply the bonus, destroy the
sacrifice slot (guarded, main.c:2498-2501), clear both selections, mark
the repair done, return to `WB_OPEN` and trigger the flash. -/
def repairComplete (s : GameState) : Option GameState :=
  (repairApplyBonus s).map fun inv1 =>
    let inv2 :=
      if 0 ≤ s.sacrificeSlot ∧ s.sacrificeSlot < (s.maxInventory : ℤ) then
        listModify (fun sl => { sl with occupied := false, condition := 0 })
          s.sacrificeSlot.toNat inv1
      else inv1
    { s with inventory := inv2, repairSlot := -1, sacrificeSlot := -1,
             repairDone := true, workbenchState := WB_OPEN,
             pickupFlashTimer := pickupFlashMax }

/-- The per-frame repair-timer section (main.c:2483-2509): while
`WB_REPAIRING`, advance `repairTimer` by the frame delta and complete the
repair once it reaches 2.0s. -/
def repairFrameStep (dt : ℚ) (s : GameState) : Option GameState :=
  if s.workbenchState = WB_REPAIRING then
    let timer := s.repairTimer + dt
    if 2 ≤ timer then repairComplete { s with repairTimer := timer }
    else some { s with repairTimer := timer }
  else some s

/-- TAB key (main.c:2470-2472): toggles the inventory screen, only when the
workbench and the trade screen are closed (the data-log viewer is not
checked). -/
def tabKeyStep (s : GameState) : GameState :=
  if s.workbenchState = WB_CLOSED ∧ s.tradeScreenOpen = false then
    { s with inventoryOpen := !s.inventoryOpen }
  else s

/-- ESC key: the handlers that see the press within one frame, in frame
order — the main-loop checks (main.c:2473-2480), then the workbench UI
close (main.c:4468-4479, drawn only while the workbench is not closed and
ignored while `WB_REPAIRING`), then the viewer close (main.c:4717-4719).
The trade UI's own ESC check (main.c:5194) never fires here because the
main-loop check already closed the screen before it is drawn. -/
def escKeyStep (s : GameState) : GameState :=
  let s1 := if s.inventoryOpen then { s with inventoryOpen := false } else s
  let s2 := if s1.tradeScreenOpen then
              { s1 with tradeScreenOpen := false, selectedTradeSlot := -1 }
            else s1
  let s3 := if s2.workbenchState ≠ WB_CLOSED ∧ s2.workbenchState ≠ WB_REPAIRING then
              { s2 with workbenchState := WB_CLOSED, repairSlot := -1, sacrificeSlot := -1,
                        pickupFlashTimer := pickupFlashMax * (1 / 2) }
            else s2
  if s3.dataLogViewerOpen then { s3 with dataLogViewerOpen := false } else s3

/-- Click on inventory row `i` of the workbench UI (main.c:4213-4296,
handler at 4275-4287).  The handler runs whenever the workbench UI is drawn
(`workbenchState != WB_CLOSED`, main.c:2916), i.e. also while
`WB_REPAIRING`; it only reacts on occupied rows `i < maxInv`. -/
def wbRowClick (i : ℕ) (s : GameState) : GameState :=
  if s.workbenchState ≠ WB_CLOSED ∧ i < s.maxInventory then
    match s.inventory.get? i with
    | some sl =>
        if sl.occupied then
          if s.repairSlot = (i : ℤ) then { s with repairSlot := -1 }
          else if s.sacrificeSlot = (i : ℤ) then { s with sacrificeSlot := -1 }
          else if s.repairSlot = -1 ∧ (i : ℤ) ≠ s.sacrificeSlot then
            { s with repairSlot := (i : ℤ) }
          else if s.sacrificeSlot = -1 ∧ (i : ℤ) ≠ s.repairSlot then
            { s with sacrificeSlot := (i : ℤ) }
          else s
        else s
    | none => s
  else s

/-- Source `bothFilled` (main.c:4380-4382): both selections refer to occupied
slots. -/
def bothFilled (s : GameState) : Bool :=
  0 ≤ s.repairSlot && 0 ≤ s.sacrificeSlot &&
    (match slotGet? s.inventory s.repairSlot, slotGet? s.inventory s.sacrificeSlot with
     | some rep, some sac => rep.occupied && sac.occupied
     | _, _ => false)

/-- Click on the REPAIR button (main.c:4426-4441): enabled only when both
slots are filled and the workbench is `WB_OPEN`; starts the repair. -/
def wbRepairClick (s : GameState) : GameState :=
  if s.workbenchState ≠ WB_CLOSED ∧
     bothFilled s = true ∧ s.workbenchState = WB_OPEN then
    { s with workbenchState := WB_REPAIRING, repairTimer := 0 }
  else s

/-- Click on the workbench CLOSE button (main.c:4458-4480): ignored while
`WB_REPAIRING`. -/
def wbCloseClick (s : GameState) : GameState :=
  if s.workbenchState ≠ WB_CLOSED ∧ s.workbenchState ≠ WB_REPAIRING then
    { s with workbenchState := WB_CLOSED, repairSlot := -1, sacrificeSlot := -1,
             pickupFlashTimer := pickupFlashMax * (1 / 2) }
  else s

/-- Click on inventory row `i` of the trade screen (main.c:4784-4855,
handler at 4841-4845): only rows that are occupied and trade-eligible
(condition ≥ 0.8) toggle the selection. -/
def tradeRowClick (i : ℕ) (s : GameState) : GameState :=
  if s.tradeScreenOpen = true ∧ i < s.maxInventory then
    match s.inventory.get? i with
    | some sl =>
        if sl.occupied && (4 / 5 : ℚ) ≤ sl.condition then
          { s with selectedTradeSlot := if s.selectedTradeSlot = (i : ℤ) then -1 else (i : ℤ) }
        else s
    | none => s
  else s

/-- Source `hasSelected` (main.c:4921-4924): the selected trade slot is a valid
index, occupied, and has condition ≥ 0.8. -/
def hasSelected (s : GameState) : Bool :=
  0 ≤ s.selectedTradeSlot && s.selectedTradeSlot < (s.maxInventory : ℤ) &&
    (match slotGet? s.inventory s.selectedTradeSlot with
     | some sl => sl.occupied && (4 / 5 : ℚ) ≤ sl.condition
     | none => false)

/-- Click on the TRADE ITEM button (main.c:4947-4956): clears the selected
slot and grants one token. -/
def tradeBtnClick (s : GameState) : GameState :=
  if s.tradeScreenOpen = true ∧ hasSelected s = true then
    { s with
        inventory := listModify (fun sl => { sl with occupied := false, condition := 0 })
          s.selectedTradeSlot.toNat s.inventory,
        tokenCount := s.tokenCount + 1,
        tokenAnimTimer := 2 / 5,
        tokenAnimDelta := 1,
        selectedTradeSlot := -1 }
  else s

/-- Cost of the next data log, `2 + dataLogsPurchased` (main.c:4981). -/
def logCost (s : GameState) : ℤ := 2 + s.dataLogsPurchased

/-- Whether the data-log BUY button is offered and affordable
(main.c:4980-4982): not after the 5th purchase, and only when the token
count covers the cost. -/
def canAffordLog (s : GameState) : Bool :=
  !(5 ≤ s.dataLogsPurchased) && logCost s ≤ s.tokenCount

/-- Click on the data-log BUY button (main.c:5046-5054): pay the cost,
record the purchase, and open the log viewer on the new entry; the trade
screen is left open. -/
def buyLogClick (s : GameState) : GameState :=
  if s.tradeScreenOpen = true ∧ canAffordLog s = true then
    { s with
        tokenCount := s.tokenCount - logCost s,
        tokenAnimTimer := 2 / 5,
        tokenAnimDelta := -1,
        dataLogViewerIndex := s.dataLogsPurchased,
        dataLogsPurchased := s.dataLogsPurchased + 1,
        dataLogViewerOpen := true }
  else s

/-- Click on the tool-upgrade BUY button (main.c:5063-5112): one-shot, flat
cost 3, raises the base repair bonus to 0.25. -/
def buyToolClick (s : GameState) : GameState :=
  if s.tradeScreenOpen = true ∧ s.toolUpgradePurchased = false ∧ 3 ≤ s.tokenCount then
    { s with tokenCount := s.tokenCount - 3, tokenAnimTimer := 2 / 5, tokenAnimDelta := -1,
             toolUpgradePurchased := true, baseRepairBonus := 1 / 4 }
  else s

/-- Click on the carry-upgrade BUY button (main.c:5121-5170): one-shot, flat
cost 4, raises the inventory capacity to 10. -/
def buyCarryClick (s : GameState) : GameState :=
  if s.tradeScreenOpen = true ∧ s.carryUpgradePurchased = false ∧ 4 ≤ s.tokenCount then
    { s with tokenCount := s.tokenCount - 4, tokenAnimTimer := 2 / 5, tokenAnimDelta := -1,
             carryUpgradePurchased := true, maxInventory := 10 }
  else s

/-- Click on the trade-screen CLOSE button (main.c:5194-5198). -/
def tradeCloseClick (s : GameState) : GameState :=
  if s.tradeScreenOpen then { s with tradeScreenOpen := false, selectedTradeSlot := -1 }
  else s

/-- Click on the data-log viewer CLOSE button (main.c:4717-4719). -/
def viewerCloseClick (s : GameState) : GameState :=
  if s.dataLogViewerOpen then { s with dataLogViewerOpen := false } else s

/-- Click on a tab of the inventory screen (main.c:3801-3825). -/
def invTabClick (t : ℤ) (s : GameState) : GameState :=
  if s.inventoryOpen = true ∧ (t = 0 ∨ t = 1) then { s with inventoryTab := t } else s

/-- Click on row `i` of the LOGS tab of the inventory screen
(main.c:3932-4015, handler at 4012-4015): opens the viewer on an acquired
log; the inventory screen is left open. -/
def invLogRowClick (i : ℕ) (s : GameState) : GameState :=
  if s.inventoryOpen = true ∧ s.inventoryTab = 1 ∧ i < 5 ∧ (i : ℤ) < s.dataLogsPurchased then
    { s with dataLogViewerOpen := true, dataLogViewerIndex := (i : ℤ) }
  else s

/-- One frame-step or UI action of the game loop.  Key presses and widget
clicks are edge-triggered inputs; `frame` is the per-frame repair-timer
section, the only one that can hit undefined behaviour. -/
inductive Action where
  | tabKey
  | escKey
  | interact (p : ℚ × ℚ) (rng : ℚ)
  | frame (dt : ℚ)
  | wbRow (i : ℕ)
  | wbRepairBtn
  | wbCloseBtn
  | tradeRow (i : ℕ)
  | tradeBtn
  | buyLog
  | buyTool
  | buyCarry
  | tradeCloseBtn
  | viewerCloseBtn
  | invTab (t : ℤ)
  | invLogRow (i : ℕ)
deriving DecidableEq, Repr

/-- One step of the game loop.  The interact handler only runs when no
modal screen is open (the movement/interaction gate, main.c:2551);
`none` models an out-of-bounds array access (undefined behaviour). -/
def step (s : GameState) : Action → Option GameState
  | .tabKey => some (tabKeyStep s)
  | .escKey => some (escKeyStep s)
  | .interact p rng =>
      if s.inventoryOpen = false ∧ s.workbenchState = WB_CLOSED ∧
         s.tradeScreenOpen = false ∧ s.dataLogViewerOpen = false then
        some (interactStep p rng s)
      else some s
  | .frame dt => repairFrameStep dt s
  | .wbRow i => some (wbRowClick i s)
  | .wbRepairBtn => some (wbRepairClick s)
  | .wbCloseBtn => some (wbCloseClick s)
  | .tradeRow i => some (tradeRowClick i s)
  | .tradeBtn => some (tradeBtnClick s)
  | .buyLog => some (buyLogClick s)
  | .buyTool => some (buyToolClick s)
  | .buyCarry => some (buyCarryClick s)
  | .tradeCloseBtn => some (tradeCloseClick s)
  | .viewerCloseBtn => some (viewerCloseClick s)
  | .invTab t => some (invTabClick t s)
  | .invLogRow i => some (invLogRowClick i s)

/-- Run a sequence of actions; `none` as soon as one step hits undefined
behaviour. -/
def run (s : GameState) : List Action → Option GameState
  | [] => some s
  | a :: as =>
      match step s a with
      | none => none
      | some s' => run s' as

/-- States reachable from some game start along defined behaviour. -/
def Reachable (s : GameState) : Prop :=
  ∃ items acts, ItemsWellFormed items ∧ run (initState items) acts = some s

/-- Modal mutual exclusion as the code actually maintains it: the
inventory screen, the workbench and the trade screen pairwise exclude each
other, and the data-log viewer never coexists with the workbench.  (The
viewer CAN coexist with the trade screen and with the inventory screen —
see the counterexample to C2.) -/
def ModalInv (s : GameState) : Prop :=
  ¬(s.inventoryOpen = true ∧ s.workbenchState ≠ WB_CLOSED) ∧
  ¬(s.inventoryOpen = true ∧ s.tradeScreenOpen = true) ∧
  ¬(s.workbenchState ≠ WB_CLOSED ∧ s.tradeScreenOpen = true) ∧
  ¬(s.dataLogViewerOpen = true ∧ s.workbenchState ≠ WB_CLOSED)

instance (s : GameState) : Decidable (ModalInv s) := by
  unfold ModalInv; infer_instance

/-- The sandstorm subsystem state (main.c:2427-2432). -/
structure StormSys where
  stormState : StormState
  stormTimer : ℚ
  stormDuration : ℚ
  stormPhase : ℚ
  stormMsgAlpha : ℚ
  stormSpeedMult : ℚ
deriving DecidableEq, Repr

/-- One frame of the sandstorm state machine (main.c:2511-2549):
`stormTimer -= deltaTime` followed by the state chain.  The two random
draws — the Active duration `GetRandomValue(2000,3000)/100 ∈ [20,30]` and
the next Calm timer `GetRandomValue(6000,12000)/100 ∈ [60,120]` — are the
oracle inputs `rngActive` and `rngCalm`. -/
def stormStep (dt rngActive rngCalm : ℚ) (s : StormSys) : StormSys :=
  let timer := s.stormTimer - dt
  if s.stormState = STORM_CALM ∧ timer ≤ 0 then
    { s with stormState := STORM_BUILDING, stormDuration := 5, stormTimer := 5,
             stormPhase := 0 }
  else if s.stormState = STORM_BUILDING then
    let phase := 1 - timer / s.stormDuration
    if timer ≤ 0 then
      { s with stormState := STORM_ACTIVE, stormDuration := rngActive,
               stormTimer := rngActive, stormPhase := 0,
               stormSpeedMult := 7 / 10, stormMsgAlpha := phase }
    else
      { s with stormTimer := timer, stormPhase := phase, stormMsgAlpha := phase }
  else if s.stormState = STORM_ACTIVE then
    let phase := timer / s.stormDuration
    if timer ≤ 0 then
      { s with stormState := STORM_FADING, stormDuration := 5, stormTimer := 5,
               stormPhase := 0, stormMsgAlpha := 0 }
    else
      { s with stormTimer := timer, stormPhase := phase, stormMsgAlpha := 0 }
  else if s.stormState = STORM_FADING then
    let phase := timer / s.stormDuration
    let mult := 7 / 10 + (1 - phase) * (3 / 10)
    if timer ≤ 0 then
      { s with stormState := STORM_CALM, stormTimer := rngCalm, stormPhase := 0,
               stormSpeedMult := 1, stormMsgAlpha := 0 }
    else
      { s with stormTimer := timer, stormPhase := phase, stormSpeedMult := mult }
  else
    { s with stormTimer := timer }

/-- The values the respawn relocation draws for one item: the accepted
position of the reject-and-resample loop (main.c:2742-2745), the new type
`GetRandomValue(0,4)` and the condition draw `GetRandomValue(0,600)`
(main.c:2747-2748). -/
structure RespawnDraw where
  pos : ℚ × ℚ
  typeIndex : ℕ
  condDraw : ℚ
deriving DecidableEq, Repr

/-- Exactly what the reject-and-resample loop (main.c:2742-2745)
guarantees about the position it accepts: each coordinate is
`100 + GetRandomValue(0, 3800) ∈ [100, 3900]` and the rejection condition
`|wx-cx| < 200 && |wy-cy| < 200` fails. -/
def respawnPosOk (p : ℚ × ℚ) : Prop :=
  100 ≤ p.1 ∧ p.1 ≤ 3900 ∧ 100 ≤ p.2 ∧ p.2 ≤ 3900 ∧
  ¬(|p.1 - 2000| < 200 ∧ |p.2 - 2000| < 200)

/-- The per-item body of the respawn-timer update loop (main.c:2731-2755):
skip active items and items with no pending timer, decrement by the frame
delta, and on crossing to ≤ 0 reset the timer to 0 and reactivate with the
drawn position, type and condition `0.3 + condDraw/1000`. -/
def itemRespawnTick (dt : ℚ) (draw : RespawnDraw) (it : WorldItem) : WorldItem :=
  if it.active then it
  else if it.respawnTimer ≤ 0 then it
  else
    let t := it.respawnTimer - dt
    if t ≤ 0 then
      { typeIndex := draw.typeIndex, condition := 3 / 10 + draw.condDraw / 1000,
        position := draw.pos, active := true, respawnTimer := 0 }
    else
      { it with respawnTimer := t }

/-- An abstract inventory operation: `add` is `AddToInventory`
(main.c:2229-2240); `remove` is the slot clearing shared by the repair
sacrifice (main.c:2499-2500) and the trade-in (main.c:4949-4950). -/
inductive InvOp where
  | add (typeIndex : ℕ) (condition : ℚ)
  | remove (slot : ℕ)
deriving DecidableEq, Repr

/-- Apply one inventory operation. -/
def applyInvOp (maxInv : ℕ) (inv : List InventorySlot) : InvOp → List InventorySlot
  | .add t c => (AddToInventory inv t c maxInv).2
  | .remove i => listModify (fun sl => { sl with occupied := false, condition := 0 }) i inv

/-- Apply a sequence of inventory operations, oldest first. -/
def applyInvOps (maxInv : ℕ) (inv : List InventorySlot) : List InvOp → List InventorySlot
  | [] => inv
  | op :: ops => applyInvOps maxInv (applyInvOp maxInv inv op) ops

instance : DecidablePred ItemsWellFormed := fun items => by
  unfold ItemsWellFormed; infer_instance

/-- A fresh active world item at `(x, y)`. -/
def mkItem (x y : ℚ) (t : ℕ) (c : ℚ) : WorldItem :=
  { typeIndex := t, condition := c, position := (x, y), active := true, respawnTimer := 0 }

/-- A concrete world-item layout the initialisation code can produce
(item 0 at angle 0 / distance 300, item 1 at angle 0 / distance 320, the
rest at angle 0 / distance 1200; all coordinates are exact float values). -/
def demoItems : List WorldItem :=
  [mkItem 2300 2000 0 (9 / 10), mkItem 2320 2000 0 (9 / 10)] ++
    List.replicate 16 (mkItem 3200 2000 0 (1 / 2))

/-- Pick up items 0 and 1, walk to the gate, trade both in, and buy the
first data log. -/
def c2CexActs : List Action :=
  [Action.interact (2300, 2000) 0, Action.interact (2320, 2000) 0,
   Action.interact (2200, 2000) 0, Action.tradeRow 0, Action.tradeBtn,
   Action.tradeRow 1, Action.tradeBtn, Action.buyLog]

/-- The state after `c2CexActs`: the trade screen and the data-log viewer
are both open. -/
def c2CexState : GameState where
  worldItems :=
    [{ mkItem 2300 2000 0 (9 / 10) with active := false, respawnTimer := 60 },
     { mkItem 2320 2000 0 (9 / 10) with active := false, respawnTimer := 60 }] ++
      List.replicate 16 (mkItem 3200 2000 0 (1 / 2))
  inventory := List.replicate MAX_INVENTORY { typeIndex := 0, condition := 0, occupied := false }
  workbenchState := WB_CLOSED
  repairSlot := -1
  sacrificeSlot := -1
  repairTimer := 0
  repairDone := false
  tokenCount := 0
  tradeScreenOpen := true
  dataLogsPurchased := 1
  toolUpgradePurchased := false
  carryUpgradePurchased := false
  maxInventory := 8
  baseRepairBonus := 1 / 5
  tokenAnimTimer := 2 / 5
  tokenAnimDelta := -1
  selectedTradeSlot := -1
  dataLogViewerOpen := true
  dataLogViewerIndex := 0
  inventoryOpen := false
  inventoryTab := 0
  fullMsgTimer := 0
  pickupFlashTimer := 1 / 5

/-- Pick up items 0 and 1, open the workbench, select slot 0 as repair and
slot 1 as sacrifice, press REPAIR, then click inventory row 1 again while
the repair is running. -/
def c10Acts : List Action :=
  [Action.interact (2300, 2000) 0, Action.interact (2320, 2000) 0,
   Action.interact (1940, 1962) 0, Action.wbRow 0, Action.wbRow 1,
   Action.wbRepairBtn, Action.wbRow 1]

/-- The state after `c10Acts`: still `WB_REPAIRING`, but the sacrifice
selection has been cleared back to `-1` by the row click. -/
def c10PreState : GameState where
  worldItems :=
    [{ mkItem 2300 2000 0 (9 / 10) with active := false, respawnTimer := 60 },
     { mkItem 2320 2000 0 (9 / 10) with active := false, respawnTimer := 60 }] ++
      List.replicate 16 (mkItem 3200 2000 0 (1 / 2))
  inventory :=
    [{ typeIndex := 0, condition := 9 / 10, occupied := true },
     { typeIndex := 0, condition := 9 / 10, occupied := true }] ++
      List.replicate 8 { typeIndex := 0, condition := 0, occupied := false }
  workbenchState := WB_REPAIRING
  repairSlot := 0
  sacrificeSlot := -1
  repairTimer := 0
  repairDone := false
  tokenCount := 0
  tradeScreenOpen := false
  dataLogsPurchased := 0
  toolUpgradePurchased := false
  carryUpgradePurchased := false
  maxInventory := 8
  baseRepairBonus := 1 / 5
  tokenAnimTimer := 0
  tokenAnimDelta := 1
  selectedTradeSlot := -1
  dataLogViewerOpen := false
  dataLogViewerIndex := 0
  inventoryOpen := false
  inventoryTab := 0
  fullMsgTimer := 0
  pickupFlashTimer := 1 / 5

/-- A state mid-repair: slot 0 (Circuit Board, 50%) selected for repair,
slot 1 (Circuit Board, 40%) as sacrifice, base bonus 0.2 — the successful
repair scenario of the specification. -/
def wbRepairDemo : GameState :=
  { initState demoItems with
      inventory :=
        [{ typeIndex := 0, condition := 1 / 2, occupied := true },
         { typeIndex := 0, condition := 2 / 5, occupied := true }] ++
          List.replicate 8 { typeIndex := 0, condition := 0, occupied := false },
      workbenchState := WB_REPAIRING,
      repairSlot := 0,
      sacrificeSlot := 1 }

/-- A state with the inventory at capacity 8/8 and the player standing on
top of active world item 2. -/
def fullInvDemo : GameState :=
  { initState demoItems with
      inventory :=
        List.replicate 8 { typeIndex := 0, condition := 1 / 2, occupied := true } ++
          List.replicate 2 { typeIndex := 0, condition := 0, occupied := false } }

/-- A trade-screen state with slot 0 at condition exactly 0.8 selected. -/
def tradeDemo : GameState :=
  { initState demoItems with
      inventory :=
        [{ typeIndex := 0, condition := 4 / 5, occupied := true }] ++
          List.replicate 9 { typeIndex := 0, condition := 0, occupied := false },
      tradeScreenOpen := true,
      selectedTradeSlot := 0 }

/-- A trade-screen state with 2 tokens and no data log purchased yet. -/
def logDemo : GameState :=
  { initState demoItems with tradeScreenOpen := true, tokenCount := 2 }

/-- A calm storm state with 60 seconds on the clock. -/
def stormDemo : StormSys where
  stormState := STORM_CALM
  stormTimer := 60
  stormDuration := 0
  stormPhase := 0
  stormMsgAlpha := 0
  stormSpeedMult := 1

/-! ## Helper lemmas about the list primitives -/

-- The Batteries rational-arithmetic primitives are shipped `irreducible`,
-- which prevents `decide`/`rfl` from evaluating the embedded step functions
-- on concrete states; restore the default reducibility for them.
attribute [local semireducible] Rat.mul Rat.add Rat.sub Rat.inv

theorem listModify_length {α : Type} (f : α → α) :
    ∀ (n : ℕ) (l : List α), (listModify f n l).length = l.length
  | n, [] => by cases n <;> rfl
  | 0, _ :: _ => rfl
  | n + 1, _ :: as => by simp [listModify, listModify_length f n as]

theorem listModify_get_self {α : Type} (f : α → α) :
    ∀ (n : ℕ) (l : List α), (listModify f n l).get? n = (l.get? n).map f
  | _, [] => by simp [listModify]
  | 0, a :: as => by simp [listModify]
  | n + 1, a :: as => by simpa [listModify] using listModify_get_self f n as

theorem listModify_get_ne {α : Type} (f : α → α) :
    ∀ (m n : ℕ) (l : List α), m ≠ n → (listModify f n l).get? m = l.get? m
  | _, _, [], _ => by simp [listModify]
  | 0, 0, a :: as, h => absurd rfl h
  | 0, n + 1, a :: as, _ => by simp [listModify]
  | m + 1, 0, a :: as, _ => by simp [listModify]
  | m + 1, n + 1, a :: as, h => by
      simpa [listModify] using listModify_get_ne f m n as (by omega)

theorem AddToInventory_length (t : ℕ) (c : ℚ) :
    ∀ (inv : List InventorySlot) (m : ℕ),
      ((AddToInventory inv t c m).2).length = inv.length
  | [], _ => rfl
  | _ :: _, 0 => rfl
  | s :: rest, m + 1 => by
      by_cases h : s.occupied <;>
        simp [AddToInventory, h, AddToInventory_length t c rest m]

theorem CountInventory_le (inv : List InventorySlot) (m : ℕ) :
    CountInventory inv m ≤ m := by
  unfold CountInventory
  calc ((inv.take m).filter (fun s => s.occupied)).length
      ≤ (inv.take m).length := List.length_filter_le _ _
    _ ≤ m := by simp [List.length_take]

theorem AddToInventory_full :
    ∀ (inv : List InventorySlot) (m : ℕ), m ≤ inv.length →
      CountInventory inv m = m → ∀ (t : ℕ) (c : ℚ),
        (AddToInventory inv t c m).1 = false
  | [], m, hlen, _, t, c => by
      have hm : m = 0 := Nat.le_zero.mp hlen
      subst hm
      simp [AddToInventory]
  | s :: rest, 0, _, _, t, c => by simp [AddToInventory]
  | s :: rest, m + 1, hlen, hcount, t, c => by
      by_cases h : s.occupied
      · have hrest : CountInventory rest m = m := by
          have := hcount
          simp [CountInventory, List.take, List.filter, h] at this
          simpa [CountInventory] using this
        have := AddToInventory_full rest m (by simpa using hlen) hrest t c
        simp [AddToInventory, h, this]
      · exfalso
        have hle : CountInventory rest m ≤ m := CountInventory_le rest m
        have : CountInventory (s :: rest) (m + 1) = CountInventory rest m := by
          simp [CountInventory, List.take, List.filter, h]
        omega

theorem applyInvOp_length (m : ℕ) (inv : List InventorySlot) (op : InvOp) :
    (applyInvOp m inv op).length = inv.length := by
  cases op with
  | add t c => simpa [applyInvOp] using AddToInventory_length t c inv m
  | remove i => simp [applyInvOp, listModify_length]

theorem applyInvOps_length (m : ℕ) :
    ∀ (ops : List InvOp) (inv : List InventorySlot),
      (applyInvOps m inv ops).length = inv.length
  | [], _ => rfl
  | op :: ops, inv => by
      simp [applyInvOps, applyInvOps_length m ops, applyInvOp_length]

/-- C4: for every sequence of `add`/`remove` operations the number of
occupied slots stays at most `maxInventory`, and `add` always fails when
the count has reached `maxInventory` (`CountInventory` main.c:2220-2227,
`AddToInventory` main.c:2229-2240; the capacity `m` is at most the
physical array length, as in the source where `maxInventory ≤ 10`). -/
theorem claim_C4_inventory_capacity (inv0 : List InventorySlot) (m : ℕ)
    (ops : List InvOp) (t : ℕ) (c : ℚ) (hm : m ≤ inv0.length) :
    CountInventory (applyInvOps m inv0 ops) m ≤ m ∧
    (CountInventory (applyInvOps m inv0 ops) m = m →
      (AddToInventory (applyInvOps m inv0 ops) t c m).1 = false) := by
  refine ⟨CountInventory_le _ m, fun hfull => ?_⟩
  exact AddToInventory_full _ m (by rw [applyInvOps_length]; exact hm) hfull t c

/-- C4 witness: an 8-slot capacity inventory filled by eight adds; the
count is full and a further add fails. -/
theorem claim_C4_witness :
    (8 : ℕ) ≤ (List.replicate 10 ({ typeIndex := 0, condition := 0, occupied := false } : InventorySlot)).length ∧
    (CountInventory (applyInvOps 8 (List.replicate 10 { typeIndex := 0, condition := 0, occupied := false })
        (List.replicate 8 (InvOp.add 0 (1 / 2)))) 8 ≤ 8 ∧
      (CountInventory (applyInvOps 8 (List.replicate 10 { typeIndex := 0, condition := 0, occupied := false })
          (List.replicate 8 (InvOp.add 0 (1 / 2)))) 8 = 8 →
        (AddToInventory (applyInvOps 8 (List.replicate 10 { typeIndex := 0, condition := 0, occupied := false })
            (List.replicate 8 (InvOp.add 0 (1 / 2)))) 2 (3 / 4) 8).1 = false)) :=
  ⟨by decide,
   claim_C4_inventory_capacity (List.replicate 10 { typeIndex := 0, condition := 0, occupied := false })
     8 (List.replicate 8 (InvOp.add 0 (1 / 2))) 2 (3 / 4) (by decide)⟩

theorem categoryOf_isSome (t : ℕ) (h : t < NUM_ITEM_TYPES) :
    ∃ cat, categoryOf t = some cat := by
  unfold NUM_ITEM_TYPES at h
  interval_cases t <;> exact ⟨_, rfl⟩

theorem clamp_eq_min (c : ℚ) : (if 1 < c then 1 else c) = min 1 c := by
  split_ifs with h
  · exact (min_eq_left (le_of_lt h)).symm
  · exact (min_eq_right (not_lt.mp h)).symm

/-- C1: when the repair timer reaches 2.0s in state `WB_REPAIRING` with a
valid occupied repair slot and a valid occupied sacrifice slot, the repair
slot's condition becomes `min(1, condition + bonus)` with the +0.1 bonus
exactly on a category match, the sacrifice slot is cleared, both
selections reset to none, and the workbench returns to `WB_OPEN`
(main.c:2483-2509). -/
theorem claim_C1_repair_completion (s : GameState) (dt : ℚ)
    (rep sac : InventorySlot)
    (hwb : s.workbenchState = WB_REPAIRING)
    (htimer : 2 ≤ s.repairTimer + dt)
    (hrep0 : 0 ≤ s.repairSlot) (hrep1 : s.repairSlot < (s.maxInventory : ℤ))
    (hsac0 : 0 ≤ s.sacrificeSlot) (hsac1 : s.sacrificeSlot < (s.maxInventory : ℤ))
    (hne : s.repairSlot ≠ s.sacrificeSlot)
    (hrepGet : slotGet? s.inventory s.repairSlot = some rep)
    (hsacGet : slotGet? s.inventory s.sacrificeSlot = some sac)
    (hrepOcc : rep.occupied = true) (hsacOcc : sac.occupied = true)
    (hrepTy : rep.typeIndex < NUM_ITEM_TYPES) (hsacTy : sac.typeIndex < NUM_ITEM_TYPES) :
    ∃ s', repairFrameStep dt s = some s' ∧
      slotGet? s'.inventory s.repairSlot =
        some { rep with condition := (min 1 (rep.condition +
          repairBonus s.baseRepairBonus rep sac)) } ∧
      min 1 (rep.condition + repairBonus s.baseRepairBonus rep sac) ≤ 1 ∧
      slotGet? s'.inventory s.sacrificeSlot =
        some { sac with occupied := false, condition := 0 } ∧
      s'.repairSlot = -1 ∧ s'.sacrificeSlot = -1 ∧
      s'.workbenchState = WB_OPEN := by
  obtain ⟨repCat, hRepCat⟩ := categoryOf_isSome _ hrepTy
  obtain ⟨sacCat, hSacCat⟩ := categoryOf_isSome _ hsacTy
  have hrn : s.repairSlot = (s.repairSlot.toNat : ℤ) := (Int.toNat_of_nonneg hrep0).symm
  have hsn : s.sacrificeSlot = (s.sacrificeSlot.toNat : ℤ) := (Int.toNat_of_nonneg hsac0).symm
  have hnatne : s.repairSlot.toNat ≠ s.sacrificeSlot.toNat := by
    intro h
    exact hne (by rw [hrn, hsn, h])
  have hrepGetN : s.inventory.get? s.repairSlot.toNat = some rep := by
    simpa [slotGet?, hrep0] using hrepGet
  have hsacGetN : s.inventory.get? s.sacrificeSlot.toNat = some sac := by
    simpa [slotGet?, hsac0] using hsacGet
  have hbonusEq : (if repCat = sacCat then s.baseRepairBonus + 1 / 10 else s.baseRepairBonus)
      = repairBonus s.baseRepairBonus rep sac := by
    rw [repairBonus, hRepCat, hSacCat]
    by_cases h : repCat = sacCat <;> simp [h]
  set bumpF : InventorySlot → InventorySlot :=
    fun sl =>
      let c := sl.condition + repairBonus s.baseRepairBonus rep sac
      { sl with condition := if 1 < c then 1 else c } with hbumpF
  set clearF : InventorySlot → InventorySlot :=
    fun sl => { sl with occupied := false, condition := 0 } with hclearF
  set inv1 := listModify bumpF s.repairSlot.toNat s.inventory with hinv1
  set inv2 := listModify clearF s.sacrificeSlot.toNat inv1 with hinv2
  have hbump : repairApplyBonus { s with repairTimer := s.repairTimer + dt } = some inv1 := by
    unfold repairApplyBonus
    simp only [slotGet?, hrep0, hsac0, if_true, hrepGetN, hsacGetN, hrepOcc,
      hRepCat, hSacCat, hrep1, hsac1, true_and, if_true, hbonusEq]
  have hcomplete :
      repairFrameStep dt s = some { s with
        repairTimer := s.repairTimer + dt, inventory := inv2,
        repairSlot := -1, sacrificeSlot := -1, repairDone := true,
        workbenchState := WB_OPEN, pickupFlashTimer := pickupFlashMax } := by
    unfold repairFrameStep
    rw [if_pos hwb, if_pos htimer]
    unfold repairComplete
    rw [hbump]
    simp only [Option.map_some', Option.some_inj]
    rw [if_pos (And.intro hsac0 hsac1)]
  refine ⟨_, hcomplete, ?_, ?_, ?_, rfl, rfl, rfl⟩
  · show slotGet? inv2 s.repairSlot = _
    rw [slotGet?, if_pos hrep0, hinv2,
      listModify_get_ne clearF _ _ inv1 hnatne, hinv1,
      listModify_get_self bumpF _ s.inventory, hrepGetN]
    simp only [Option.map_some, Option.some_inj, hbumpF]
    simp [clamp_eq_min]
  · exact min_le_left 1 _
  · show slotGet? inv2 s.sacrificeSlot = _
    rw [slotGet?, if_pos hsac0, hinv2,
      listModify_get_self clearF _ inv1, hinv1,
      listModify_get_ne bumpF _ _ s.inventory (Ne.symm hnatne), hsacGetN]
    simp [hclearF]

/-- C1 witness: the specification's successful-repair scenario — slot 0
(Electronics, 0.5) repaired with slot 1 (Electronics, 0.4) at base bonus
0.2 after a 2.0s frame: condition becomes min(1, 0.5+0.3) = 0.8 and slot 1
is cleared. -/
theorem claim_C1_witness :
    ∃ s', repairFrameStep 2 wbRepairDemo = some s' ∧
      slotGet? s'.inventory 0 =
        some { typeIndex := 0,
               condition := (min 1 (1 / 2 +
                 repairBonus (1 / 5) ⟨0, 1 / 2, true⟩ ⟨0, 2 / 5, true⟩)),
               occupied := true } ∧
      min 1 (1 / 2 + repairBonus (1 / 5) ⟨0, 1 / 2, true⟩ ⟨0, 2 / 5, true⟩) ≤ 1 ∧
      slotGet? s'.inventory 1 = some { typeIndex := 0, condition := 0, occupied := false } ∧
      s'.repairSlot = -1 ∧ s'.sacrificeSlot = -1 ∧ s'.workbenchState = WB_OPEN :=
  claim_C1_repair_completion wbRepairDemo 2 ⟨0, 1 / 2, true⟩ ⟨0, 2 / 5, true⟩
    (by decide) (by decide) (by decide) (by decide)
    (by decide) (by decide) (by decide) (by decide) (by decide) (by decide)
    (by decide) (by decide) (by decide)

/-- C6: trading in slot `i` at the gate is possible exactly when the slot
is occupied and its condition is at least 0.8 (so condition exactly 0.8 is
eligible and anything below is not); a successful trade-in clears the slot
(occupied = false, condition = 0) and increments `tokenCount` by exactly 1
(`hasSelected` main.c:4921-4924, trade action main.c:4947-4956; selection
itself is also only offered on eligible rows, main.c:4834-4845). -/
theorem claim_C6_trade_in (s : GameState) (i : ℕ) (sl : InventorySlot)
    (ht : s.tradeScreenOpen = true)
    (hsel : s.selectedTradeSlot = (i : ℤ))
    (hi : i < s.maxInventory)
    (hget : s.inventory.get? i = some sl) :
    (hasSelected s = true ↔ (sl.occupied = true ∧ 4 / 5 ≤ sl.condition)) ∧
    (sl.occupied = true → 4 / 5 ≤ sl.condition →
      slotGet? (tradeBtnClick s).inventory (i : ℤ) =
        some { sl with occupied := false, condition := 0 } ∧
      (tradeBtnClick s).tokenCount = s.tokenCount + 1) ∧
    (¬(sl.occupied = true ∧ 4 / 5 ≤ sl.condition) → tradeBtnClick s = s) := by
  have hiz : (0 : ℤ) ≤ s.selectedTradeSlot := by rw [hsel]; exact Int.natCast_nonneg i
  have hilt : s.selectedTradeSlot < (s.maxInventory : ℤ) := by
    rw [hsel]; exact_mod_cast hi
  have htn : s.selectedTradeSlot.toNat = i := by rw [hsel]; exact Int.toNat_natCast i
  have hsget : slotGet? s.inventory s.selectedTradeSlot = some sl := by
    rw [slotGet?, if_pos hiz, htn]; exact hget
  have hsel_eq : hasSelected s = (sl.occupied && decide (4 / 5 ≤ sl.condition)) := by
    rw [hasSelected, hsget]
    simp [hiz, hilt]
  constructor
  · rw [hsel_eq]
    simp [Bool.and_eq_true, decide_eq_true_iff]
  constructor
  · intro hocc hcond
    have hsel' : hasSelected s = true := by rw [hsel_eq, hocc]; simpa using hcond
    rw [tradeBtnClick, if_pos (And.intro ht hsel')]
    refine ⟨?_, rfl⟩
    show slotGet? (listModify _ s.selectedTradeSlot.toNat s.inventory) (i : ℤ) = _
    rw [slotGet?, if_pos (Int.natCast_nonneg i), Int.toNat_natCast, htn,
      listModify_get_self _ i s.inventory, hget]
    rfl
  · intro hnot
    have hsel' : hasSelected s = false := by
      rw [hsel_eq]
      rcases Bool.eq_false_or_eq_true sl.occupied with h | h
      · simp only [h, Bool.true_and, decide_eq_false_iff_not, not_le]
        exact not_le.mp fun hc => hnot ⟨h, hc⟩
      · simp [h]
    rw [tradeBtnClick]
    rw [if_neg]
    intro ⟨_, hsel2⟩
    rw [hsel'] at hsel2
    exact Bool.false_ne_true hsel2

/-- C6 witness: slot 0 at condition exactly 0.8 is eligible; trading it in
clears the slot and raises the token count from 0 to 1. -/
theorem claim_C6_witness :
    (hasSelected tradeDemo = true ↔
      ((true : Bool) = true ∧ (4 / 5 : ℚ) ≤ 4 / 5)) ∧
    ((true : Bool) = true → (4 / 5 : ℚ) ≤ 4 / 5 →
      slotGet? (tradeBtnClick tradeDemo).inventory (0 : ℤ) =
        some { typeIndex := 0, condition := 0, occupied := false } ∧
      (tradeBtnClick tradeDemo).tokenCount = tradeDemo.tokenCount + 1) ∧
    (¬((true : Bool) = true ∧ (4 / 5 : ℚ) ≤ 4 / 5) → tradeBtnClick tradeDemo = tradeDemo) :=
  claim_C6_trade_in tradeDemo 0 ⟨0, 4 / 5, true⟩ (by decide) (by decide) (by decide) (by decide)

/-- C7: the data-log cost is `2 + dataLogsPurchased`; a purchase is
possible exactly while fewer than 5 logs are owned and the tokens cover
the cost; purchasing pays the cost, increments `dataLogsPurchased`, and
opens the log viewer on the newly purchased entry; from the 5th log on no
purchase is offered (main.c:4976-5056). -/
theorem claim_C7_log_purchase (s : GameState) (ht : s.tradeScreenOpen = true) :
    logCost s = 2 + s.dataLogsPurchased ∧
    (canAffordLog s = true ↔ (s.dataLogsPurchased < 5 ∧ logCost s ≤ s.tokenCount)) ∧
    (canAffordLog s = true →
      (buyLogClick s).tokenCount = s.tokenCount - logCost s ∧
      (buyLogClick s).dataLogsPurchased = s.dataLogsPurchased + 1 ∧
      (buyLogClick s).dataLogViewerOpen = true ∧
      (buyLogClick s).dataLogViewerIndex = s.dataLogsPurchased ∧
      (buyLogClick s).tradeScreenOpen = s.tradeScreenOpen) ∧
    (5 ≤ s.dataLogsPurchased → canAffordLog s = false ∧ buyLogClick s = s) := by
  refine ⟨rfl, ?_, ?_, ?_⟩
  · rw [canAffordLog]
    simp [Int.not_le, and_comm]
  · intro hcan
    rw [buyLogClick, if_pos (And.intro ht hcan)]
    exact ⟨rfl, rfl, rfl, rfl, rfl⟩
  · intro h5
    have hfalse : canAffordLog s = false := by
      rw [canAffordLog]
      simp [h5]
    refine ⟨hfalse, ?_⟩
    rw [buyLogClick, if_neg]
    intro ⟨_, hcan⟩
    rw [hfalse] at hcan
    exact Bool.false_ne_true hcan

/-- C7 witness: with 2 tokens and no logs owned the first log costs 2 and
is purchasable; the purchase leaves 0 tokens, 1 log, and the viewer open
on entry 0. -/
theorem claim_C7_witness :
    logCost logDemo = 2 + logDemo.dataLogsPurchased ∧
    (canAffordLog logDemo = true ↔
      (logDemo.dataLogsPurchased < 5 ∧ logCost logDemo ≤ logDemo.tokenCount)) ∧
    (canAffordLog logDemo = true →
      (buyLogClick logDemo).tokenCount = logDemo.tokenCount - logCost logDemo ∧
      (buyLogClick logDemo).dataLogsPurchased = logDemo.dataLogsPurchased + 1 ∧
      (buyLogClick logDemo).dataLogViewerOpen = true ∧
      (buyLogClick logDemo).dataLogViewerIndex = logDemo.dataLogsPurchased ∧
      (buyLogClick logDemo).tradeScreenOpen = logDemo.tradeScreenOpen) ∧
    (5 ≤ logDemo.dataLogsPurchased →
      canAffordLog logDemo = false ∧ buyLogClick logDemo = logDemo) :=
  claim_C7_log_purchase logDemo (by decide)

theorem firstNearActive_some (p : ℚ × ℚ) :
    ∀ (l : List WorldItem) (i : ℕ), firstNearActive p l = some i →
      ∃ it, l.get? i = some it ∧ it.active = true ∧
        withinDist p it.position PICKUP_RADIUS = true
  | [], i, h => by simp [firstNearActive] at h
  | it :: rest, i, h => by
      by_cases hc : it.active && withinDist p it.position PICKUP_RADIUS
      · rw [firstNearActive, if_pos hc] at h
        obtain ⟨ha, hw⟩ := Bool.and_eq_true .. |>.mp hc
        cases h
        exact ⟨it, rfl, ha, hw⟩
      · rw [firstNearActive, if_neg hc] at h
        rcases hrest : firstNearActive p rest with _ | j
        · rw [hrest] at h; exact absurd h (by simp)
        · rw [hrest] at h
          simp only [Option.map_some', Option.some.injEq] at h
          obtain ⟨it', hget, ha, hw⟩ := firstNearActive_some p rest j hrest
          exact ⟨it', by simpa [← h] using hget, ha, hw⟩

/-- C3: the interact dispatch (main.c:2654-2709) gives the gate priority —
with the gate-proximity condition and the workbench-proximity condition
both true, no active item in pickup range, and the workbench closed, a
press opens the trade screen and not the workbench.  The two proximity
flags are exactly the conditions computed at main.c:2656-2660
(`gateDist <= GATE_INTERACT_RADIUS`, `wbDist <= 60.0f`); in the shipped
world layout the two anchors are ≈263 units apart, so the scenario is
settled at the dispatch level, where the ordering is visible. -/
theorem claim_C3_gate_priority (p : ℚ × ℚ) (rng : ℚ) (s : GameState)
    (nearGate nearWb : Bool)
    (hg : nearGate = true) (hw : nearWb = true)
    (hwb : s.workbenchState = WB_CLOSED) :
    (interactDispatch p rng false nearGate nearWb s).tradeScreenOpen = true ∧
    (interactDispatch p rng false nearGate nearWb s).workbenchState = WB_CLOSED ∧
    interactDispatch p rng false nearGate nearWb s =
      { s with tradeScreenOpen := true, selectedTradeSlot := -1 } := by
  subst hg hw
  rw [interactDispatch, if_pos (by simp [hwb])]
  exact ⟨rfl, by simpa using hwb, rfl⟩

/-- C3 witness: the dispatch at concrete flag values. -/
theorem claim_C3_witness :
    (interactDispatch (0, 0) 0 false true true (initState demoItems)).tradeScreenOpen = true ∧
    (interactDispatch (0, 0) 0 false true true (initState demoItems)).workbenchState = WB_CLOSED ∧
    interactDispatch (0, 0) 0 false true true (initState demoItems) =
      { initState demoItems with tradeScreenOpen := true, selectedTradeSlot := -1 } :=
  claim_C3_gate_priority (0, 0) 0 (initState demoItems) true true rfl rfl (by decide)

/-- C5: with the inventory at full capacity, pressing interact near an
active world item (no modal screen open; gate and workbench not taking the
branch because an item is in range) rejects the pickup atomically: the
only state change is the "inventory full" notice timer being set to 2
seconds — the item keeps `active = true` and its respawn timer, and the
inventory is untouched (main.c:2680-2700, full branch at 2695-2697). -/
theorem claim_C5_full_pickup (s : GameState) (p : ℚ × ℚ) (rng : ℚ) (i : ℕ)
    (hinv : s.inventoryOpen = false) (hwb : s.workbenchState = WB_CLOSED)
    (htr : s.tradeScreenOpen = false) (hdv : s.dataLogViewerOpen = false)
    (hfirst : firstNearActive p s.worldItems = some i)
    (hfull : CountInventory s.inventory s.maxInventory = s.maxInventory) :
    step s (Action.interact p rng) = some { s with fullMsgTimer := FULL_MSG_DURATION } ∧
    (∃ it, s.worldItems.get? i = some it ∧ it.active = true ∧
      withinDist p it.position PICKUP_RADIUS = true) := by
  obtain ⟨it, hget, ha, hwD⟩ := firstNearActive_some p s.worldItems i hfirst
  refine ⟨?_, it, hget, ha, hwD⟩
  have hnear : (firstNearActive p s.worldItems).isSome = true := by rw [hfirst]; rfl
  have hnotlt : ¬ CountInventory s.inventory s.maxInventory < s.maxInventory := by
    omega
  rw [step, if_pos ⟨hinv, hwb, htr, hdv⟩]
  rw [interactStep, interactDispatch, if_neg (by simp [hnear]), if_neg (by simp [hnear])]
  have hpick : pickupBranch p rng s = { s with fullMsgTimer := FULL_MSG_DURATION } := by
    simp only [pickupBranch, hfirst, hget]
    rw [if_neg hnotlt]
  rw [hpick, if_neg (by simp [hnear])]

/-- C5 witness: inventory 8/8, player on top of active item 2; the
interact press only raises the 2s full notice. -/
theorem claim_C5_witness :
    step fullInvDemo (Action.interact (3200, 2000) 0) =
      some { fullInvDemo with fullMsgTimer := FULL_MSG_DURATION } ∧
    (∃ it, fullInvDemo.worldItems.get? 2 = some it ∧ it.active = true ∧
      withinDist (3200, 2000) it.position PICKUP_RADIUS = true) :=
  claim_C5_full_pickup fullInvDemo (3200, 2000) 0 2 (by decide) (by decide) (by decide)
    (by decide) (by decide) (by decide)

/-- C8: the storm cycle closes (main.c:2511-2549).  Starting from
`STORM_CALM` with any randomized timer `t ∈ [60,120]` and multiplier 1,
four frames whose deltas are exactly the phase durations — `t`, then 5s
(Building), then the randomized Active duration `d ∈ [20,30]`, then 5s
(Fading), a total elapsed time of `t + 5 + d + 5` — return the machine to
exactly `STORM_CALM` with `stormSpeedMult = 1` and a fresh randomized
timer `t2 ∈ [60,120]`.  The multiplier is 0.7 on entering and throughout
`STORM_ACTIVE` (a mid-phase frame `u < d`), and during `STORM_FADING` it
interpolates as `0.7 + (1 - phase) * 0.3` with `phase = (5 - v)/5` after a
a mid-phase frame `v < 5`. -/
theorem claim_C8_storm_cycle (t d t2 u v : ℚ) (s : StormSys)
    (hstate : s.stormState = STORM_CALM) (htimer : s.stormTimer = t)
    (ht1 : 60 ≤ t) (ht2 : t ≤ 120)
    (hd1 : 20 ≤ d) (hd2 : d ≤ 30)
    (ht21 : 60 ≤ t2) (ht22 : t2 ≤ 120)
    (hu1 : 0 < u) (hu2 : u < d) (hv1 : 0 < v) (hv2 : v < 5) :
    stormStep t d t2 s =
      { s with stormState := STORM_BUILDING, stormDuration := 5, stormTimer := 5,
               stormPhase := 0 } ∧
    stormStep 5 d t2 (stormStep t d t2 s) =
      { s with stormState := STORM_ACTIVE, stormDuration := d, stormTimer := d,
               stormPhase := 0, stormSpeedMult := 7 / 10, stormMsgAlpha := 1 } ∧
    (stormStep u d t2 (stormStep 5 d t2 (stormStep t d t2 s))).stormState = STORM_ACTIVE ∧
    (stormStep u d t2 (stormStep 5 d t2 (stormStep t d t2 s))).stormSpeedMult = 7 / 10 ∧
    stormStep d d t2 (stormStep 5 d t2 (stormStep t d t2 s)) =
      { s with stormState := STORM_FADING, stormDuration := 5, stormTimer := 5,
               stormPhase := 0, stormSpeedMult := 7 / 10, stormMsgAlpha := 0 } ∧
    (stormStep v d t2 (stormStep d d t2 (stormStep 5 d t2 (stormStep t d t2 s)))).stormState
      = STORM_FADING ∧
    (stormStep v d t2 (stormStep d d t2 (stormStep 5 d t2 (stormStep t d t2 s)))).stormSpeedMult
      = 7 / 10 + (1 - (5 - v) / 5) * (3 / 10) ∧
    stormStep 5 d t2 (stormStep d d t2 (stormStep 5 d t2 (stormStep t d t2 s))) =
      { s with stormState := STORM_CALM, stormDuration := 5, stormTimer := t2,
               stormPhase := 0, stormSpeedMult := 1, stormMsgAlpha := 0 } ∧
    60 ≤ t2 ∧ t2 ≤ 120 := by
  have e1 : stormStep t d t2 s =
      { s with stormState := STORM_BUILDING, stormDuration := 5, stormTimer := 5,
               stormPhase := 0 } := by
    rw [stormStep]
    rw [if_pos ⟨hstate, by rw [htimer]; simp⟩]
  have e2 : stormStep 5 d t2 (stormStep t d t2 s) =
      { s with stormState := STORM_ACTIVE, stormDuration := d, stormTimer := d,
               stormPhase := 0, stormSpeedMult := 7 / 10, stormMsgAlpha := 1 } := by
    rw [e1, stormStep]
    rw [if_neg (by simp), if_pos rfl, if_pos (by norm_num)]
    norm_num
  have eu : stormStep u d t2 (stormStep 5 d t2 (stormStep t d t2 s)) =
      { s with stormState := STORM_ACTIVE, stormDuration := d, stormTimer := d - u,
               stormPhase := (d - u) / d, stormSpeedMult := 7 / 10, stormMsgAlpha := 0 } := by
    rw [e2, stormStep]
    rw [if_neg (by simp), if_neg (by simp), if_pos rfl, if_neg (by simp; linarith)]
  have e3 : stormStep d d t2 (stormStep 5 d t2 (stormStep t d t2 s)) =
      { s with stormState := STORM_FADING, stormDuration := 5, stormTimer := 5,
               stormPhase := 0, stormSpeedMult := 7 / 10, stormMsgAlpha := 0 } := by
    rw [e2, stormStep]
    rw [if_neg (by simp), if_neg (by simp), if_pos rfl, if_pos (by simp)]
  have ev : stormStep v d t2 (stormStep d d t2 (stormStep 5 d t2 (stormStep t d t2 s))) =
      { s with stormState := STORM_FADING, stormDuration := 5, stormTimer := 5 - v,
               stormPhase := (5 - v) / 5,
               stormSpeedMult := 7 / 10 + (1 - (5 - v) / 5) * (3 / 10),
               stormMsgAlpha := 0 } := by
    rw [e3, stormStep]
    rw [if_neg (by simp), if_neg (by simp), if_neg (by simp), if_pos rfl,
      if_neg (by simp; linarith)]
  have e4 : stormStep 5 d t2 (stormStep d d t2 (stormStep 5 d t2 (stormStep t d t2 s))) =
      { s with stormState := STORM_CALM, stormDuration := 5, stormTimer := t2,
               stormPhase := 0, stormSpeedMult := 1, stormMsgAlpha := 0 } := by
    rw [e3, stormStep]
    rw [if_neg (by simp), if_neg (by simp), if_neg (by simp), if_pos rfl, if_pos (by simp)]
  exact ⟨e1, e2, by rw [eu], by rw [eu], e3, by rw [ev], by rw [ev], e4, ht21, ht22⟩

/-- C8 witness: the cycle at `t = 60`, `d = 20`, `t2 = 100`, with mid-phase
frames `u = 1` into Active and `v = 1` into Fading. -/
theorem claim_C8_witness :
    stormStep 60 20 100 stormDemo =
      { stormDemo with
          stormState := STORM_BUILDING, stormDuration := 5, stormTimer := 5,
          stormPhase := 0 } ∧
    stormStep 5 20 100 (stormStep 60 20 100 stormDemo) =
      { stormDemo with
          stormState := STORM_ACTIVE, stormDuration := 20, stormTimer := 20,
          stormPhase := 0, stormSpeedMult := 7 / 10, stormMsgAlpha := 1 } ∧
    (stormStep 1 20 100 (stormStep 5 20 100 (stormStep 60 20 100 stormDemo))).stormState
      = STORM_ACTIVE ∧
    (stormStep 1 20 100 (stormStep 5 20 100 (stormStep 60 20 100 stormDemo))).stormSpeedMult
      = 7 / 10 ∧
    stormStep 20 20 100 (stormStep 5 20 100 (stormStep 60 20 100 stormDemo)) =
      { stormDemo with
          stormState := STORM_FADING, stormDuration := 5, stormTimer := 5,
          stormPhase := 0, stormSpeedMult := 7 / 10, stormMsgAlpha := 0 } ∧
    (stormStep 1 20 100 (stormStep 20 20 100 (stormStep 5 20 100
        (stormStep 60 20 100 stormDemo)))).stormState = STORM_FADING ∧
    (stormStep 1 20 100 (stormStep 20 20 100 (stormStep 5 20 100
        (stormStep 60 20 100 stormDemo)))).stormSpeedMult
      = 7 / 10 + (1 - (5 - 1) / 5) * (3 / 10) ∧
    stormStep 5 20 100 (stormStep 20 20 100 (stormStep 5 20 100
        (stormStep 60 20 100 stormDemo))) =
      { stormDemo with
          stormState := STORM_CALM, stormDuration := 5, stormTimer := 100,
          stormPhase := 0, stormSpeedMult := 1, stormMsgAlpha := 0 } ∧
    (60 : ℚ) ≤ 100 ∧ (100 : ℚ) ≤ 120 :=
  claim_C8_storm_cycle 60 20 100 1 1 stormDemo rfl rfl (by norm_num) (by norm_num)
    (by norm_num) (by norm_num) (by norm_num) (by norm_num) (by norm_num) (by norm_num)
    (by norm_num) (by norm_num)

/-- C9: the world-item respawn lifecycle.  Immediately after pickup the
respawn timer is `60 + rng ∈ [60, 90]` (main.c:2690); while the item is
inactive with a pending timer, a tick with a delta smaller than the timer
strictly decreases it by exactly `dt` (main.c:2735); on the tick where the
timer crosses to ≤ 0 the item reactivates with the timer reset to 0 (never
negative), the drawn type, a condition `0.3 + draw/1000 ∈ [0.3, 0.9]`, and
a position that is not within 200 units of the world center on both axes
simultaneously (main.c:2736-2749). -/
theorem claim_C9_respawn (it itD itR : WorldItem) (rng dt dt2 : ℚ) (draw : RespawnDraw)
    (hrng1 : 0 ≤ rng) (hrng2 : rng ≤ 30)
    (hposOk : respawnPosOk draw.pos)
    (hcd1 : 0 ≤ draw.condDraw) (hcd2 : draw.condDraw ≤ 600)
    (hD : itD.active = false) (hD1 : 0 < itD.respawnTimer) (hD2 : dt < itD.respawnTimer)
    (hdt : 0 < dt)
    (hR : itR.active = false) (hR1 : 0 < itR.respawnTimer) (hR2 : itR.respawnTimer ≤ dt2) :
    (60 ≤ (pickUpItem it rng).respawnTimer ∧ (pickUpItem it rng).respawnTimer ≤ 90 ∧
      (pickUpItem it rng).active = false) ∧
    ((itemRespawnTick dt draw itD).respawnTimer = itD.respawnTimer - dt ∧
      (itemRespawnTick dt draw itD).respawnTimer < itD.respawnTimer ∧
      (itemRespawnTick dt draw itD).active = false) ∧
    (itemRespawnTick dt2 draw itR =
        { typeIndex := draw.typeIndex, condition := 3 / 10 + draw.condDraw / 1000,
          position := draw.pos, active := true, respawnTimer := 0 } ∧
      3 / 10 ≤ 3 / 10 + draw.condDraw / 1000 ∧ 3 / 10 + draw.condDraw / 1000 ≤ 9 / 10 ∧
      ¬(|draw.pos.1 - 2000| < 200 ∧ |draw.pos.2 - 2000| < 200)) := by
  have hDtick : itemRespawnTick dt draw itD = { itD with respawnTimer := itD.respawnTimer - dt } := by
    rw [itemRespawnTick]
    rw [if_neg (by simp [hD]), if_neg (by simp; linarith), if_neg (by simp; linarith)]
  have hRtick : itemRespawnTick dt2 draw itR =
      { typeIndex := draw.typeIndex, condition := 3 / 10 + draw.condDraw / 1000,
        position := draw.pos, active := true, respawnTimer := 0 } := by
    rw [itemRespawnTick]
    rw [if_neg (by simp [hR]), if_neg (by simp; linarith), if_pos (by linarith)]
  refine ⟨⟨?_, ?_, rfl⟩,
    ⟨by rw [hDtick], by rw [hDtick]; simpa using hdt, by rw [hDtick]; exact hD⟩,
    hRtick, by linarith, by linarith, hposOk.2.2.2.2⟩
  · show 60 ≤ 60 + rng
    linarith
  · show 60 + rng ≤ 90
    linarith

/-- C9 witness: pickup with draw 0 gives a 60s timer; a 1s tick on a
pending 70s timer gives 69s; a 2s tick on a pending 1s timer reactivates
at (2300, 2000) with type 0 and condition 0.9 (draw 600). -/
theorem claim_C9_witness :
    (60 ≤ (pickUpItem (mkItem 2300 2000 0 (1 / 2)) 0).respawnTimer ∧
      (pickUpItem (mkItem 2300 2000 0 (1 / 2)) 0).respawnTimer ≤ 90 ∧
      (pickUpItem (mkItem 2300 2000 0 (1 / 2)) 0).active = false) ∧
    ((itemRespawnTick 1 ⟨(2300, 2000), 0, 600⟩
        { mkItem 2320 2000 0 (1 / 2) with active := false, respawnTimer := 70 }).respawnTimer =
        (70 : ℚ) - 1 ∧
      (itemRespawnTick 1 ⟨(2300, 2000), 0, 600⟩
        { mkItem 2320 2000 0 (1 / 2) with active := false, respawnTimer := 70 }).respawnTimer <
        (70 : ℚ) ∧
      (itemRespawnTick 1 ⟨(2300, 2000), 0, 600⟩
        { mkItem 2320 2000 0 (1 / 2) with active := false, respawnTimer := 70 }).active = false) ∧
    (itemRespawnTick 2 ⟨(2300, 2000), 0, 600⟩
        { mkItem 2320 2000 0 (1 / 2) with active := false, respawnTimer := 1 } =
        { typeIndex := 0, condition := 3 / 10 + 600 / 1000,
          position := (2300, 2000), active := true, respawnTimer := 0 } ∧
      3 / 10 ≤ 3 / 10 + (600 : ℚ) / 1000 ∧ 3 / 10 + (600 : ℚ) / 1000 ≤ 9 / 10 ∧
      ¬(|(2300 : ℚ) - 2000| < 200 ∧ |(2000 : ℚ) - 2000| < 200)) :=
  claim_C9_respawn (mkItem 2300 2000 0 (1 / 2))
    { mkItem 2320 2000 0 (1 / 2) with active := false, respawnTimer := 70 }
    { mkItem 2320 2000 0 (1 / 2) with active := false, respawnTimer := 1 }
    0 1 2 ⟨(2300, 2000), 0, 600⟩
    (by norm_num) (by norm_num) (by constructor <;> norm_num) (by norm_num) (by norm_num)
    (by decide) (by norm_num) (by norm_num) (by norm_num)
    (by decide) (by norm_num) (by norm_num)

/-! ## Preservation of the modal-exclusion invariant -/

theorem modalInv_transfer (s s' : GameState) (hInv : ModalInv s)
    (h1 : s'.inventoryOpen = s.inventoryOpen)
    (h2 : (s'.workbenchState ≠ WB_CLOSED) ↔ (s.workbenchState ≠ WB_CLOSED))
    (h3 : s'.tradeScreenOpen = s.tradeScreenOpen)
    (h4 : s'.dataLogViewerOpen = s.dataLogViewerOpen) : ModalInv s' := by
  obtain ⟨i1, i2, i3, i4⟩ := hInv
  exact ⟨fun ⟨a, b⟩ => i1 ⟨h1 ▸ a, h2.mp b⟩,
    fun ⟨a, b⟩ => i2 ⟨h1 ▸ a, h3 ▸ b⟩,
    fun ⟨a, b⟩ => i3 ⟨h2.mp a, h3 ▸ b⟩,
    fun ⟨a, b⟩ => i4 ⟨h4 ▸ a, h2.mp b⟩⟩

theorem pickupBranch_flags (p : ℚ × ℚ) (rng : ℚ) (s : GameState) :
    (pickupBranch p rng s).inventoryOpen = s.inventoryOpen ∧
    (pickupBranch p rng s).workbenchState = s.workbenchState ∧
    (pickupBranch p rng s).tradeScreenOpen = s.tradeScreenOpen ∧
    (pickupBranch p rng s).dataLogViewerOpen = s.dataLogViewerOpen := by
  rcases hfa : firstNearActive p s.worldItems with _ | i
  · simp [pickupBranch, hfa]
  · rcases hg : s.worldItems.get? i with _ | it <;>
      simp only [List.get?_eq_getElem?] at hg
    · simp [pickupBranch, hfa, hg]
    · by_cases h : CountInventory s.inventory s.maxInventory < s.maxInventory
      · simp [pickupBranch, hfa, hg, h]
      · simp [pickupBranch, hfa, hg, h]

theorem modalInv_interactStep (p : ℚ × ℚ) (rng : ℚ) (s : GameState)
    (hI : s.inventoryOpen = false) (hW : s.workbenchState = WB_CLOSED)
    (hT : s.tradeScreenOpen = false) (hV : s.dataLogViewerOpen = false) :
    ModalInv (interactStep p rng s) := by
  obtain ⟨f1, f2, f3, f4⟩ := pickupBranch_flags p rng s
  rw [interactStep, interactDispatch]
  simp only []
  split_ifs with h1 h2 h3
  · exact ⟨fun ⟨a, _⟩ => by simp [hI] at a, fun ⟨a, _⟩ => by simp [hI] at a,
      fun ⟨a, _⟩ => a (by simpa using hW), fun ⟨a, _⟩ => by simp [hV] at a⟩
  · exact ⟨fun ⟨a, _⟩ => by simp [openWorkbench, hI] at a,
      fun ⟨a, _⟩ => by simp [openWorkbench, hI] at a,
      fun ⟨_, b⟩ => by simp [openWorkbench, hT] at b,
      fun ⟨a, _⟩ => by simp [openWorkbench, hV] at a⟩
  · exact ⟨fun ⟨a, _⟩ => by simp [openWorkbench, f1, hI] at a,
      fun ⟨a, _⟩ => by simp [openWorkbench, f1, hI] at a,
      fun ⟨_, b⟩ => by simp [openWorkbench, f3, hT] at b,
      fun ⟨a, _⟩ => by simp [openWorkbench, f4, hV] at a⟩
  · exact ⟨fun ⟨a, _⟩ => by simp [f1, hI] at a, fun ⟨a, _⟩ => by simp [f1, hI] at a,
      fun ⟨_, b⟩ => by simp [f3, hT] at b, fun ⟨a, _⟩ => by simp [f4, hV] at a⟩

theorem modalInv_escKeyStep (s : GameState) (hInv : ModalInv s) :
    ModalInv (escKeyStep s) := by
  have k1 : ∀ x : GameState, ModalInv x →
      ModalInv (if x.inventoryOpen = true then { x with inventoryOpen := false } else x) := by
    intro x hx
    split_ifs
    · exact ⟨fun ⟨a, _⟩ => by simp at a, fun ⟨a, _⟩ => by simp at a,
        fun ⟨a, b⟩ => hx.2.2.1 ⟨by simpa using a, by simpa using b⟩,
        fun ⟨a, b⟩ => hx.2.2.2 ⟨by simpa using a, by simpa using b⟩⟩
    · exact hx
  have k2 : ∀ x : GameState, ModalInv x →
      ModalInv (if x.tradeScreenOpen = true then
        { x with tradeScreenOpen := false, selectedTradeSlot := -1 } else x) := by
    intro x hx
    split_ifs
    · exact ⟨fun ⟨a, b⟩ => hx.1 ⟨by simpa using a, by simpa using b⟩,
        fun ⟨_, b⟩ => by simp at b, fun ⟨_, b⟩ => by simp at b,
        fun ⟨a, b⟩ => hx.2.2.2 ⟨by simpa using a, by simpa using b⟩⟩
    · exact hx
  have k3 : ∀ x : GameState, ModalInv x →
      ModalInv (if x.workbenchState ≠ WB_CLOSED ∧ x.workbenchState ≠ WB_REPAIRING then
        { x with workbenchState := WB_CLOSED, repairSlot := -1, sacrificeSlot := -1,
                 pickupFlashTimer := pickupFlashMax * (1 / 2) } else x) := by
    intro x hx
    split_ifs
    · exact ⟨fun ⟨_, b⟩ => by simp at b, fun ⟨a, b⟩ => hx.2.1 ⟨by simpa using a, by simpa using b⟩,
        fun ⟨a, _⟩ => by simp at a, fun ⟨_, b⟩ => by simp at b⟩
    · exact hx
  have k4 : ∀ x : GameState, ModalInv x →
      ModalInv (if x.dataLogViewerOpen = true then { x with dataLogViewerOpen := false } else x) := by
    intro x hx
    split_ifs
    · exact ⟨fun ⟨a, b⟩ => hx.1 ⟨by simpa using a, by simpa using b⟩,
        fun ⟨a, b⟩ => hx.2.1 ⟨by simpa using a, by simpa using b⟩,
        fun ⟨a, b⟩ => hx.2.2.1 ⟨by simpa using a, by simpa using b⟩,
        fun ⟨a, _⟩ => by simp at a⟩
    · exact hx
  exact k4 _ (k3 _ (k2 _ (k1 _ hInv)))

theorem modalInv_step (s s' : GameState) (a : Action) (hInv : ModalInv s)
    (h : step s a = some s') : ModalInv s' := by
  cases a with
  | tabKey =>
      cases h
      rw [tabKeyStep]
      split_ifs with hc
      · obtain ⟨hwb, htr⟩ := hc
        exact ⟨fun ⟨_, b⟩ => by simp [hwb] at b, fun ⟨_, b⟩ => by simp [htr] at b,
          fun ⟨a, _⟩ => by simp [hwb] at a, fun ⟨_, b⟩ => by simp [hwb] at b⟩
      · exact hInv
  | escKey =>
      cases h
      exact modalInv_escKeyStep s hInv
  | interact p rng =>
      rw [step] at h
      split_ifs at h with hg
      · cases h
        exact modalInv_interactStep p rng s hg.1 hg.2.1 hg.2.2.1 hg.2.2.2
      · cases h
        exact hInv
  | frame dt =>
      rw [step, repairFrameStep] at h
      by_cases hrep : s.workbenchState = WB_REPAIRING
      · rw [if_pos hrep] at h
        simp only [] at h
        by_cases ht : (2 : ℚ) ≤ s.repairTimer + dt
        · rw [if_pos ht] at h
          rcases hb : repairApplyBonus { s with repairTimer := s.repairTimer + dt } with _ | inv1
          · rw [repairComplete, hb] at h
            exact absurd h (by simp)
          · rw [repairComplete, hb, Option.map_some'] at h
            cases h
            refine modalInv_transfer s _ hInv rfl ?_ rfl rfl
            simp [hrep]
        · rw [if_neg ht] at h
          cases h
          exact modalInv_transfer s _ hInv rfl (by simp) rfl rfl
      · rw [if_neg hrep] at h
        cases h
        exact hInv
  | wbRow i =>
      cases h
      rw [wbRowClick]
      rcases hg : s.inventory.get? i with _ | sl <;> simp only [hg] <;>
        split_ifs <;>
          exact modalInv_transfer s _ hInv rfl (by simp) rfl rfl
  | wbRepairBtn =>
      cases h
      rw [wbRepairClick]
      split_ifs with hc
      · exact modalInv_transfer s _ hInv rfl (by simp [hc.1]) rfl rfl
      · exact hInv
  | wbCloseBtn =>
      cases h
      rw [wbCloseClick]
      split_ifs with hc
      · obtain ⟨i1, i2, i3, i4⟩ := hInv
        exact ⟨fun ⟨_, b⟩ => by simp at b, fun ⟨a, b⟩ => i2 ⟨a, b⟩,
          fun ⟨a, _⟩ => by simp at a, fun ⟨_, b⟩ => by simp at b⟩
      · exact hInv
  | tradeRow i =>
      cases h
      rw [tradeRowClick]
      rcases hg : s.inventory.get? i with _ | sl <;> simp only [hg] <;>
        split_ifs <;>
          exact modalInv_transfer s _ hInv rfl (by simp) rfl rfl
  | tradeBtn =>
      cases h
      rw [tradeBtnClick]
      split_ifs with hc
      · exact modalInv_transfer s _ hInv rfl (by simp) rfl rfl
      · exact hInv
  | buyLog =>
      cases h
      rw [buyLogClick]
      split_ifs with hc
      · obtain ⟨i1, i2, i3, i4⟩ := hInv
        have hwcl : ¬ s.workbenchState ≠ WB_CLOSED := fun hw => i3 ⟨hw, hc.1⟩
        exact ⟨fun ⟨a, b⟩ => i1 ⟨a, b⟩, fun ⟨a, b⟩ => i2 ⟨a, b⟩,
          fun ⟨a, b⟩ => i3 ⟨a, b⟩, fun ⟨_, b⟩ => hwcl b⟩
      · exact hInv
  | buyTool =>
      cases h
      rw [buyToolClick]
      split_ifs with hc
      · exact modalInv_transfer s _ hInv rfl (by simp) rfl rfl
      · exact hInv
  | buyCarry =>
      cases h
      rw [buyCarryClick]
      split_ifs with hc
      · exact modalInv_transfer s _ hInv rfl (by simp) rfl rfl
      · exact hInv
  | tradeCloseBtn =>
      cases h
      rw [tradeCloseClick]
      split_ifs with hc
      · obtain ⟨i1, i2, i3, i4⟩ := hInv
        exact ⟨fun ⟨a, b⟩ => i1 ⟨a, b⟩, fun ⟨_, b⟩ => by simp at b,
          fun ⟨_, b⟩ => by simp at b, fun ⟨a, b⟩ => i4 ⟨a, b⟩⟩
      · exact hInv
  | viewerCloseBtn =>
      cases h
      rw [viewerCloseClick]
      split_ifs with hc
      · obtain ⟨i1, i2, i3, i4⟩ := hInv
        exact ⟨fun ⟨a, b⟩ => i1 ⟨a, b⟩, fun ⟨a, b⟩ => i2 ⟨a, b⟩,
          fun ⟨a, b⟩ => i3 ⟨a, b⟩, fun ⟨a, _⟩ => by simp at a⟩
      · exact hInv
  | invTab t =>
      cases h
      rw [invTabClick]
      split_ifs with hc
      · exact modalInv_transfer s _ hInv rfl (by simp) rfl rfl
      · exact hInv
  | invLogRow i =>
      cases h
      rw [invLogRowClick]
      split_ifs with hc
      · obtain ⟨i1, i2, i3, i4⟩ := hInv
        have hwcl : ¬ s.workbenchState ≠ WB_CLOSED := fun hw => i1 ⟨hc.1, hw⟩
        exact ⟨fun ⟨a, b⟩ => i1 ⟨a, b⟩, fun ⟨a, b⟩ => i2 ⟨a, b⟩,
          fun ⟨a, b⟩ => i3 ⟨a, b⟩, fun ⟨_, b⟩ => hwcl b⟩
      · exact hInv

theorem modalInv_run :
    ∀ (acts : List Action) (s s' : GameState), ModalInv s →
      run s acts = some s' → ModalInv s'
  | [], s, s', hInv, h => by
      rw [run] at h
      cases h
      exact hInv
  | a :: acts, s, s', hInv, h => by
      rw [run] at h
      rcases hs : step s a with _ | s1
      · rw [hs] at h; exact absurd h (by simp)
      · rw [hs] at h
        exact modalInv_run acts s1 s' (modalInv_step s s1 a hInv hs) h

theorem modalInv_init (items : List WorldItem) : ModalInv (initState items) := by
  refine ⟨?_, ?_, ?_, ?_⟩ <;> rintro ⟨a, b⟩ <;> simp [initState] at a b

/-- C2 (amended): in every reachable state of the game loop, the inventory
screen, the workbench and the trade screen pairwise exclude each other,
and the data-log viewer is never open together with the workbench.  (The
viewer *can* be open on top of the trade screen — a log purchase leaves
the trade screen open, main.c:5046-5054 — and on top of the inventory
screen — a LOGS-tab click, main.c:4012-4015 — which is why the original
four-way mutual exclusion of C2 fails; see the counterexample.) -/
theorem claim_C2_amended_modal_exclusion (s : GameState) (h : Reachable s) :
    ModalInv s := by
  obtain ⟨items, acts, _, hrun⟩ := h
  exact modalInv_run acts (initState items) s (modalInv_init items) hrun

/-- C2 amended witness: the invariant at a concrete reachable state. -/
theorem claim_C2_amended_witness : ModalInv (initState demoItems) :=
  claim_C2_amended_modal_exclusion (initState demoItems)
    ⟨demoItems, [], by decide, rfl⟩

/-- C2 counterexample: the claimed four-way mutual exclusion is violated —
from a well-formed start, picking up two high-condition items, trading
them in at the gate and buying the first data log reaches a state in which
the trade screen and the data-log viewer are BOTH open (the buy handler,
main.c:5046-5054, opens the viewer without closing the trade screen). -/
theorem claim_C2_counterexample :
    ItemsWellFormed demoItems ∧
    run (initState demoItems) c2CexActs = some c2CexState ∧
    Reachable c2CexState ∧
    c2CexState.tradeScreenOpen = true ∧
    c2CexState.dataLogViewerOpen = true := by
  have hwf : ItemsWellFormed demoItems := by decide
  have hrun : run (initState demoItems) c2CexActs = some c2CexState := by decide
  exact ⟨hwf, hrun, ⟨demoItems, c2CexActs, hwf, hrun⟩, rfl, rfl⟩

/-- C10: the safety claim is violated by the code.  The workbench-UI row
click handler (main.c:4275-4287) also runs while `WB_REPAIRING`
(`DrawWorkbenchUI` is invoked whenever `workbenchState != WB_CLOSED`,
main.c:2916), so clicking the sacrifice row mid-repair resets
`sacrificeSlot` to `-1`; when the repair timer then reaches 2.0s, the
completion code reads `inventory[sacrificeSlot]` (main.c:2491) without a
guard — `inventory[-1]`, an out-of-bounds access (the embedded step
returns `none`). -/
theorem claim_C10_repairing_oob :
    ItemsWellFormed demoItems ∧
    run (initState demoItems) c10Acts = some c10PreState ∧
    Reachable c10PreState ∧
    c10PreState.workbenchState = WB_REPAIRING ∧
    c10PreState.repairSlot = 0 ∧
    c10PreState.sacrificeSlot = -1 ∧
    (∃ rep, slotGet? c10PreState.inventory c10PreState.repairSlot = some rep ∧
      rep.occupied = true) ∧
    step c10PreState (Action.frame 2) = none := by
  have hwf : ItemsWellFormed demoItems := by decide
  have hrun : run (initState demoItems) c10Acts = some c10PreState := by decide
  exact ⟨hwf, hrun, ⟨demoItems, c10Acts, hwf, hrun⟩, rfl, rfl, rfl,
    ⟨⟨0, 9 / 10, true⟩, by decide, rfl⟩, by decide⟩

end AboveTheClouds
